import Mathlib

/-!
Shallow embedding of `src/mongo/db/repl/data_replicator.cpp` (the data
replication core: query/oplog fetchers, databases cloner, initial-sync
state, and the DataReplicator state machine), together with theorems
settling the frozen claims about it.

Conventions of the embedding:
* `Timestamp` is `Nat` (totally ordered; the null timestamp `Timestamp()` is 0).
* `Status` is represented by its `ErrorCode`; messages are dropped (no claim
  depends on a message text).
* Stateful C++ objects become Lean structures with explicit state passing.
* Calls into external collaborators (executor scheduling, coordinator,
  reporter, applier start) are recorded as `Effect` values; member functions
  append them to a ghost `log` field, so a theorem can state exactly which
  external calls were made and in which order.
* Function-typed members (`_finishFn`, `_work`, `_batchCompletedFn`) are
  modelled by recording their invocations (ghost lists) rather than by
  storing closures.
-/

namespace DataReplicatorSpec

/-- Error codes of `mongo::ErrorCodes` that appear in the source file, plus
`OK`. `Status` values are represented by their code. -/
inductive ErrorCode
  | OK
  | NotYetInitialized
  | InvalidOptions
  | CallbackCanceled
  | InitialSyncFailure
  | InvalidSyncSource
  | OplogStartMissing
  | InvalidRoleModification
  | AlreadyInitialized
  | IllegalOperation
  | BadValue
  | FailedToParse
  | UnknownError
  deriving DecidableEq, Repr

/-- Embeds `Status::isOK()`. -/
def ErrorCode.isOK (c : ErrorCode) : Bool := c == .OK

/-- An oplog document, reduced to the one field the core reads: `ts`.
`none` models a document without a "ts" field. -/
structure OplogDoc where
  ts? : Option Nat
  deriving DecidableEq, Repr

/-- Embeds `BSONElement::timestamp()` on the "ts" field: a missing field (eoo)
reads as the null timestamp. -/
def OplogDoc.tsVal (d : OplogDoc) : Nat := d.ts?.getD 0

/-- Embeds `Fetcher::BatchData`: the documents of one cursor batch (cursorId and
namespace are carried by the real struct but only used to build the getMore
command, which we record as a boolean effect). -/
structure BatchData where
  documents : List OplogDoc
  deriving DecidableEq, Repr

/-- Embeds `Fetcher::NextAction`. -/
inductive NextAction
  | kNoAction
  | kContinue
  | kGetMore
  deriving DecidableEq, Repr

/-- Embeds `StatusWith<Fetcher::BatchData>` (called `BatchDataStatus` in the source). -/
abbrev BatchDataStatus := Except ErrorCode BatchData

/-! ## QueryFetcher / OplogFetcher (source lines 97-253)

The `_work` callback is modelled by returning the list of arguments it was
invoked with (in order).  `_responses` is the per-fetcher response counter. -/

/-- Embeds `OplogFetcher::_delegateCallback` (source lines 223-253), the virtual
override used when the fetcher is an `OplogFetcher` started at `startTS`.
`responses` is the value of the `_responses` member at the time of the call.
Returns the list of `_work` invocations and the (possibly updated)
`*nextAction`. -/
def OplogFetcher.delegateCallback (startTS : Nat) (responses : Nat)
    (fetchResult : BatchDataStatus) (nextAction : NextAction) :
    List BatchDataStatus × NextAction :=
  let checkStartTS := responses == 0
  match fetchResult with
  | .ok batch =>
    let hasDoc := !batch.documents.isEmpty
    if checkStartTS &&
        (!hasDoc || (hasDoc && ((batch.documents.headD ⟨none⟩).tsVal != startTS))) then
      -- Set next action to none, surface OplogStartMissing to _work.
      ([.error .OplogStartMissing], .kNoAction)
    else if hasDoc then
      ([.ok batch], nextAction)
    else
      ([], nextAction)
  | .error e => ([.error e], nextAction)

/-- Embeds `QueryFetcher::_onFetchCallback` (source lines 179-192) as it behaves on
an `OplogFetcher` instance: `++_responses`, then the virtual
`_delegateCallback` (which reads the already-incremented `_responses`), then
the getMore continuation when the result was OK and `*nextAction` is still
`kGetMore`.  Returns (new `_responses`, `_work` invocations, `*nextAction`,
whether a getMore command was filled in). -/
def QueryFetcher.onFetchCallback (startTS : Nat) (responses : Nat)
    (fetchResult : BatchDataStatus) (nextAction : NextAction) :
    Nat × List BatchDataStatus × NextAction × Bool :=
  let responses' := responses + 1
  let (workCalls, na) :=
    OplogFetcher.delegateCallback startTS responses' fetchResult nextAction
  let getMoreFilled :=
    (match fetchResult with | .ok _ => true | .error _ => false) && na == .kGetMore
  (responses', workCalls, na, getMoreFilled)

/-! ## DatabasesCloner (source lines 255-362 and 441-577) -/

/-- State of a `DatabasesCloner`.  `finishCalls` is the ghost record of the
arguments passed to `_finishFn`, in invocation order; `databaseCloners` is
the length of the `_databaseCloners` vector. -/
structure DatabasesClonerSt where
  status : ErrorCode
  active : Bool
  clonersActive : Int
  databaseCloners : Nat
  finishCalls : List ErrorCode
  deriving DecidableEq, Repr

/-- Embeds `DatabasesCloner::DatabasesCloner` (source lines 257-269): status starts
as `NotYetInitialized`; a non-callable `finishFn` downgrades it to
`InvalidOptions`. -/
def DatabasesCloner.init (finishFnCallable : Bool) : DatabasesClonerSt :=
  { status := if finishFnCallable then .NotYetInitialized else .InvalidOptions
    active := false
    clonersActive := 0
    databaseCloners := 0
    finishCalls := [] }

/-- Embeds `DatabasesCloner::isActive` (source lines 273-275). -/
def DatabasesCloner.isActive (st : DatabasesClonerSt) : Bool := st.active

/-- Embeds `DatabasesCloner::_setStatus(Status)` (source lines 327-332).  The
source's comment reads "Only set the first time called, all subsequent
failures are not recorded --only first", but the guard it implements is
`_status.code() != NotYetInitialized → _status = s`. -/
def DatabasesCloner.setStatus (st : DatabasesClonerSt) (s : ErrorCode) :
    DatabasesClonerSt :=
  if st.status != .NotYetInitialized then { st with status := s } else st

/-- Embeds `DatabasesCloner::_failed` (source lines 573-577): invokes `_finishFn`
with the recorded status. -/
def DatabasesCloner.failed (st : DatabasesClonerSt) : DatabasesClonerSt :=
  { st with finishCalls := st.finishCalls ++ [st.status] }

/-- Embeds `DatabasesCloner::_doNextActions` (source lines 562-571): when inactive
or errored, trigger `_failed` on a non-OK status. -/
def DatabasesCloner.doNextActions (st : DatabasesClonerSt) : DatabasesClonerSt :=
  if !(st.active && st.status.isOK) then
    if !st.status.isOK then DatabasesCloner.failed st else st
  else st

/-- Embeds `DatabasesCloner::_onEachDBCloneFinish` (source lines 540-560). -/
def DatabasesCloner.onEachDBCloneFinish (st : DatabasesClonerSt)
    (s : ErrorCode) : DatabasesClonerSt :=
  let clonersLeft := st.clonersActive - 1
  let st := { st with clonersActive := clonersLeft }
  let st := if s.isOK then st else DatabasesCloner.setStatus st s
  let st :=
    if clonersLeft == 0 then
      -- All cloners are done: mark inactive and call _finishFn(_status).
      { st with active := false, finishCalls := st.finishCalls ++ [st.status] }
    else st
  DatabasesCloner.doNextActions st

/-- Embeds `DatabasesCloner::cancel` (source lines 281-287). -/
def DatabasesCloner.cancel (st : DatabasesClonerSt) : DatabasesClonerSt :=
  if !st.active then st
  else DatabasesCloner.setStatus { st with active := false } .CallbackCanceled

/-- The loop body of `DatabasesCloner::_onListDatabaseFinish` over the
`databases` array (source lines 486-529).  Each list entry is a database
name paired with the outcome of constructing-and-starting its
`DatabaseCloner` (an external call).  A failed start records
`InitialSyncFailure` and breaks out of the loop. -/
def DatabasesCloner.spawnCloners (st : DatabasesClonerSt) :
    List (String × Except ErrorCode Unit) → DatabasesClonerSt
  | [] => st
  | (_name, startResult) :: rest =>
    let st := { st with clonersActive := st.clonersActive + 1 }
    match startResult with
    | .error _ => DatabasesCloner.setStatus st .InitialSyncFailure
    | .ok _ =>
        DatabasesCloner.spawnCloners
          { st with databaseCloners := st.databaseCloners + 1 } rest

/-- Embeds `DatabasesCloner::_onListDatabaseFinish` (source lines 468-538).  The
response is either a remote error, or `(okElem, databases)` where each
database carries the outcome of its cloner's construction/start. -/
def DatabasesCloner.onListDatabaseFinish
    (resp : Except ErrorCode (Bool × List (String × Except ErrorCode Unit)))
    (st : DatabasesClonerSt) : DatabasesClonerSt :=
  match resp with
  | .error e => DatabasesCloner.doNextActions (DatabasesCloner.setStatus st e)
  | .ok (okElem, dbs) =>
    if okElem then
      DatabasesCloner.doNextActions (DatabasesCloner.spawnCloners st dbs)
    else
      DatabasesCloner.doNextActions (DatabasesCloner.setStatus st .InitialSyncFailure)

/-- Embeds `DatabasesCloner::start` (source lines 441-466).  `scheduleResult` is
the outcome of `_exec->scheduleRemoteCommand` for the `listDatabases`
request (an external call).  Returns the `_status` returned to the caller
together with the post-call state. -/
def DatabasesCloner.start (scheduleResult : Except ErrorCode Unit)
    (st : DatabasesClonerSt) : ErrorCode × DatabasesClonerSt :=
  let st := { st with active := true }
  if !st.status.isOK && st.status != .NotYetInitialized then
    (st.status, st)
  else
    let st := { st with status := .OK }
    let st :=
      match scheduleResult with
      | .error e => DatabasesCloner.failed (DatabasesCloner.setStatus st e)
      | .ok _ => st
    let st := DatabasesCloner.doNextActions st
    (st.status, st)

/-! ## InitialSyncState (source lines 364-438) -/

/-- Embeds `InitialSyncState` (source lines 364-387).  The `finishEvent` and
`tmpFetcher` handles are external; `dbsCloner` is the owned cloner state.
`fetchedMissingDocs` and `appliedOps` are left uninitialized by the source
constructor; they are modelled as 0. -/
structure InitialSyncState where
  dbsCloner : DatabasesClonerSt
  beginTimestamp : Nat
  stopTimestamp : Nat
  status : ErrorCode
  fetchedMissingDocs : Nat
  appliedOps : Nat
  deriving DecidableEq, Repr

/-- Embeds `InitialSyncState::InitialSyncState` (source lines 366-367): the status
starts as `IllegalOperation`. -/
def InitialSyncState.init (cloner : DatabasesClonerSt) : InitialSyncState :=
  { dbsCloner := cloner
    beginTimestamp := 0
    stopTimestamp := 0
    status := .IllegalOperation
    fetchedMissingDocs := 0
    appliedOps := 0 }

/-- Embeds `InitialSyncState::setStatus(const Status&)` (source lines 433-435):
an unconditional overwrite. -/
def InitialSyncState.setStatus (iss : InitialSyncState) (s : ErrorCode) :
    InitialSyncState :=
  { iss with status := s }


/-! ## DataReplicator (source lines 579-1394) -/

/-- Embeds `DataReplicatorState` (the `_state` member). -/
inductive DataReplicatorState
  | Uninitialized
  | InitialSync
  | Steady
  | Rollback
  deriving DecidableEq, Repr

/-- Embeds `MemberState` values used by this file (only `RS_RECOVERING` appears). -/
inductive MemberState
  | RS_RECOVERING
  deriving DecidableEq, Repr

/-- Calls made into external collaborators (executor, coordinator, reporter,
applier, storage), recorded in order in the ghost `log` field. -/
inductive Effect
  | cancelReporter
  | attemptFailed (e : ErrorCode)
  | sleepRetry
  | scheduleRetryAt (when : Nat)
  | scheduleDoNextActionsWork
  | scheduleFetcher
  | startApplier (ops : List OplogDoc)
  | recreateReporter
  | setFollowerMode (m : MemberState)
  | blacklistSyncSource (host : String) (untilTime : Nat)
  | doNextActionsDispatch
  | warnNoTimestamp
  | setMyLastOptime (t : Nat)
  | reporterTrigger
  | scheduleMissingDocFetch (ops : List OplogDoc)
  | fassertFatal
  deriving DecidableEq, Repr

/-- The fields of `DataReplicatorOptions` that this file reads. -/
structure DataReplicatorOptions where
  syncSource : String
  startOptime : Nat
  initialSyncRetryWait : Nat
  syncSourceRetryWait : Nat
  blacklistSyncSourcePenaltyForOplogStartMissing : Nat
  blacklistSyncSourcePenaltyForNetworkConnectionError : Nat
  deriving DecidableEq, Repr

/-- State of a `DataReplicator`.  `HostAndPort` is a `String` whose empty
value plays the role of `HostAndPort()` / `.empty()`.  The owned oplog
fetcher is modelled by its start timestamp (`none` when the handle is
absent) plus an activity flag; the reporter by a presence flag and its
status.  `inFlightBatch` is the ghost record of the operations handed to
the currently running applier, and `log` the ghost record of external
calls. -/
structure DataReplicator where
  opts : DataReplicatorOptions
  state : DataReplicatorState
  fetcherPaused : Bool
  reporterPaused : Bool
  applierActive : Bool
  applierPaused : Bool
  oplogBuffer : List OplogDoc
  doShutdown : Bool
  syncSource : String
  lastTimestampFetched : Nat
  lastTimestampApplied : Nat
  initialSyncState : Option InitialSyncState
  fetcher : Option Nat
  fetcherActive : Bool
  reporterPresent : Bool
  reporterStatus : ErrorCode
  inFlightBatch : List OplogDoc
  log : List Effect
  deriving DecidableEq, Repr

/-- Append one external call to the ghost log. -/
def DataReplicator.emit (st : DataReplicator) (e : Effect) : DataReplicator :=
  { st with log := st.log ++ [e] }

/-- Embeds `DataReplicator::DataReplicator` (source lines 580-604): state starts
`Uninitialized`, all pause/active flags false, empty buffer. -/
def DataReplicator.mk0 (opts : DataReplicatorOptions) : DataReplicator :=
  { opts := opts
    state := .Uninitialized
    fetcherPaused := false
    reporterPaused := false
    applierActive := false
    applierPaused := false
    oplogBuffer := []
    doShutdown := false
    syncSource := ""
    lastTimestampFetched := 0
    lastTimestampApplied := 0
    initialSyncState := none
    fetcher := none
    fetcherActive := false
    reporterPresent := false
    reporterStatus := .OK
    inFlightBatch := []
    log := [] }

/-- The anonymous-namespace stub `_didRollback` (source lines 88-91): the
rollback decision is never taken. -/
def didRollback (_host : String) : Bool := false

/-- The environment consulted by the steady-state dispatcher: the
coordinator's `chooseNewSyncSource()` answer ("" = none available), its
`getMyLastOptime()` timestamp, and the executor's `now()`. -/
structure SteadyEnv where
  chooseNewSyncSource : String
  myLastOptime : Nat
  now : Nat
  deriving DecidableEq, Repr

/-- Embeds `DataReplicator::_ensureGoodSyncSource_inlock` (source lines 1233-1247),
in the configuration where a replication coordinator is present (the
configuration every claim is about). -/
def DataReplicator.ensureGoodSyncSource (env : SteadyEnv) (st : DataReplicator) :
    ErrorCode × DataReplicator :=
  if st.syncSource == "" then
    let st := { st with syncSource := env.chooseNewSyncSource }
    if st.syncSource != "" then (.OK, st)
    else (.InvalidSyncSource, st)
  else (.OK, st)

/-- Embeds `DataReplicator::_getNextApplierBatch_inlock` (source lines 1067-1076):
`tryPop` from the front of the buffer until empty, pushing onto the batch,
so the batch is the whole buffer in FIFO order. -/
def DataReplicator.getNextApplierBatch (st : DataReplicator) :
    List OplogDoc × DataReplicator :=
  (st.oplogBuffer, { st with oplogBuffer := [] })

/-- Embeds `DataReplicator::_scheduleApplyBatch_inlock()` (source lines 1194-1204):
guarded by `!_applierPaused && !_applierActive`; drains the buffer and
starts an `Applier` on the batch (the ops-taking overload, lines
1206-1226). -/
def DataReplicator.scheduleApplyBatch (st : DataReplicator) : DataReplicator :=
  if !st.applierPaused && !st.applierActive then
    let st := { st with applierActive := true }
    let (ops, st) := DataReplicator.getNextApplierBatch st
    DataReplicator.emit { st with inFlightBatch := ops } (.startApplier ops)
  else st

/-- Embeds `DataReplicator::_scheduleFetch_inlock` (source lines 1249-1279): when
no fetcher handle exists, create an `OplogFetcher` starting at the
coordinator's last optime; when the fetcher is inactive, schedule it. -/
def DataReplicator.scheduleFetch (env : SteadyEnv) (st : DataReplicator) :
    DataReplicator :=
  let st :=
    if st.fetcher.isNone then
      let startOptime := env.myLastOptime
      let (egs, st) := DataReplicator.ensureGoodSyncSource env st
      let st :=
        if !egs.isOK then DataReplicator.emit st .scheduleDoNextActionsWork
        else st
      { st with fetcher := some startOptime }
    else st
  if !st.fetcherActive then
    DataReplicator.emit { st with fetcherActive := true } .scheduleFetcher
  else st

/-- First block of `DataReplicator::_doNextActions_Steady_inlock` (source
lines 1039-1054): check the sync source, rescheduling a retry when none is
available, and otherwise make sure an oplog fetch is active. -/
def DataReplicator.steadyCheckSource (env : SteadyEnv) (st : DataReplicator) :
    DataReplicator :=
  let st :=
    if st.syncSource == "" then { st with syncSource := env.chooseNewSyncSource }
    else st
  if st.syncSource == "" then
    DataReplicator.emit st
      (.scheduleRetryAt (env.now + st.opts.syncSourceRetryWait))
  else
    if !st.fetcherActive then DataReplicator.scheduleFetch env st else st

/-- Second block of `_doNextActions_Steady_inlock` (source lines 1056-1059):
schedule an apply batch when the applier is idle and ops are buffered. -/
def DataReplicator.steadyCheckApply (st : DataReplicator) : DataReplicator :=
  if !st.applierActive && !st.oplogBuffer.isEmpty then
    DataReplicator.scheduleApplyBatch st
  else st

/-- Third block of `_doNextActions_Steady_inlock` (source lines 1061-1064):
recreate the reporter when unpaused and missing/errored. -/
def DataReplicator.steadyCheckReporter (st : DataReplicator) : DataReplicator :=
  if !st.reporterPaused && (!st.reporterPresent || !st.reporterStatus.isOK) then
    DataReplicator.emit
      { st with reporterPresent := true, reporterStatus := .OK } .recreateReporter
  else st

/-- Embeds `DataReplicator::_doNextActions_Steady_inlock` (source lines 1038-1065):
the three checks in sequence. -/
def DataReplicator.doNextActionsSteady (env : SteadyEnv) (st : DataReplicator) :
    DataReplicator :=
  DataReplicator.steadyCheckReporter
    (DataReplicator.steadyCheckApply (DataReplicator.steadyCheckSource env st))

/-- Embeds `DataReplicator::start` (source lines 618-632). -/
def DataReplicator.start (env : SteadyEnv) (st : DataReplicator) :
    ErrorCode × DataReplicator :=
  if st.state != .Uninitialized then
    (.IllegalOperation, st)
  else
    let st := { st with state := .Steady
                        applierPaused := false
                        fetcherPaused := false
                        reporterPaused := false }
    (.OK, DataReplicator.doNextActionsSteady env st)

/-- Embeds `maxFailedAttempts` (source line 782). -/
def maxFailedAttempts : Nat := 10

/-- The retry loop of `DataReplicator::initialSync` (source lines 785-865).

`failpointActive` is the `failInitialSyncWithBadHost` failpoint; when it is
set, the top of every iteration overwrites `attemptErrorStatus` with
`InvalidSyncSource` (source lines 787-789).  The body of an attempt (sync
source selection, event creation, `InitialSyncState` construction, the
latest-oplog-timestamp fetch, cloner start and the wait on the finish
event, lines 791-841) runs only while `attemptErrorStatus.isOK()`; it is
summarized by `attemptBody`, which maps the current `failedAttempts` count
and replicator state to the attempt's resulting status and state.  Note the
source never resets a non-OK `attemptErrorStatus` inside the loop, so it is
threaded through the recursion unchanged, exactly as the C++ local
variable is.  `fuel` bounds the recursion; it starts at `maxFailedAttempts`
and dominates `maxFailedAttempts - failedAttempts`, so the fuel-exhausted
arm is never the one that decides a result.  Failed attempts and the
`sleepmillis(initialSyncRetryWait)` between them are returned as a ghost
trace in the third component. -/
def DataReplicator.initialSyncLoop (failpointActive : Bool)
    (attemptBody : Nat → DataReplicator → ErrorCode × DataReplicator) :
    Nat → Nat → ErrorCode → DataReplicator →
    Except ErrorCode Unit × DataReplicator × List Effect
  | 0, _failedAttempts, _attemptErr, st => (.ok (), st, [])
  | fuel + 1, failedAttempts, attemptErr0, st =>
    let attemptErr1 :=
      if failpointActive then ErrorCode.InvalidSyncSource else attemptErr0
    let (attemptErr, st) :=
      if attemptErr1.isOK then attemptBody failedAttempts st
      else (attemptErr1, st)
    if attemptErr.isOK then (.ok (), st, [])  -- break: success
    else
      let failedAttempts := failedAttempts + 1
      let evs := [Effect.attemptFailed attemptErr, Effect.sleepRetry]
      if maxFailedAttempts ≤ failedAttempts then
        (.error .InitialSyncFailure, st, evs)
      else
        let r := DataReplicator.initialSyncLoop failpointActive attemptBody
          fuel failedAttempts attemptErr st
        (r.1, r.2.1, evs ++ r.2.2)

/-- Embeds `DataReplicator::initialSync` (source lines 757-886).  Returns the
`TimestampStatus` together with the post-call state (whose ghost log holds
the attempt/sleep trace).  On the success path the commented-out cleanup
block (lines 868-883) does nothing and the last applied timestamp is
returned. -/
def DataReplicator.initialSync (failpointActive : Bool)
    (attemptBody : Nat → DataReplicator → ErrorCode × DataReplicator)
    (st : DataReplicator) :
    Except ErrorCode Nat × DataReplicator × List Effect :=
  if st.state != .Uninitialized then
    if st.state == .InitialSync then (.error .InvalidRoleModification, st, [])
    else (.error .AlreadyInitialized, st, [])
  else
    let evs0 : List Effect :=
      if st.reporterPresent then [.cancelReporter] else []
    let st := { st with state := .InitialSync
                        reporterPaused := true
                        applierPaused := true }
    let r := DataReplicator.initialSyncLoop failpointActive attemptBody
      maxFailedAttempts 0 .OK st
    match r.1 with
    | .error e => (.error e, r.2.1, evs0 ++ r.2.2)
    | .ok _ => (.ok r.2.1.lastTimestampApplied, r.2.1, evs0 ++ r.2.2)

/-- Embeds `DataReplicator::_scheduleApplyAfterFetch` (source lines 1120-1140):
increment `fetchedMissingDocs` and schedule the transient missing-document
fetch.  Its only caller reaches it after `_onApplyBatchFinish` has already
dereferenced `_initialSyncState`, so the `none` arm is unreachable there. -/
def DataReplicator.scheduleApplyAfterFetch (st : DataReplicator)
    (ops : List OplogDoc) : DataReplicator :=
  match st.initialSyncState with
  | none => st
  | some iss =>
    let iss' := { iss with fetchedMissingDocs := iss.fetchedMissingDocs + 1 }
    DataReplicator.emit { st with initialSyncState := some iss' }
      (.scheduleMissingDocFetch ops)

/-- Embeds `DataReplicator::_handleFailedApplyBatch` (source lines 1106-1118):
during InitialSync, fetch-then-retry; in Rollback the switch falls through
to the default, which — like Steady — is a fatal `fassert` aborting the
process. -/
def DataReplicator.handleFailedApplyBatch (st : DataReplicator)
    (ops : List OplogDoc) : DataReplicator :=
  match st.state with
  | .InitialSync => DataReplicator.scheduleApplyAfterFetch st ops
  | _ => DataReplicator.emit st .fassertFatal

/-- Embeds `DataReplicator::_onApplyBatchFinish` (source lines 1078-1104).  The
very first statement is `_initialSyncState->appliedOps += numApplied`, which
dereferences the owned `_initialSyncState` handle; when that handle is
absent the behaviour is undefined, modelled as `none`. -/
def DataReplicator.onApplyBatchFinish (st : DataReplicator)
    (ts : Except ErrorCode Nat) (ops : List OplogDoc) (numApplied : Nat) :
    Option DataReplicator :=
  match st.initialSyncState with
  | none => none
  | some iss =>
    let iss' := { iss with appliedOps := iss.appliedOps + numApplied }
    let st := { st with initialSyncState := some iss' }
    match ts with
    | .error _ => some (DataReplicator.handleFailedApplyBatch st ops)
    | .ok t =>
      let st := { st with applierActive := false, lastTimestampApplied := t }
      let st := DataReplicator.emit st (.setMyLastOptime t)
      let st := if st.reporterPresent then DataReplicator.emit st .reporterTrigger
                else st
      some (DataReplicator.emit st .doNextActionsDispatch)

/-- Modelled from the spec: the completion value delivered by the external
`Applier` (its implementation is outside this file, spec section 6): "The
resultTimestamp is the `ts` of the last successfully applied op".  For a
batch applied in full this is the `ts` of the batch's last operation. -/
def applierResultTs (ops : List OplogDoc) : Nat :=
  ((ops.getLast?).map OplogDoc.tsVal).getD 0

/-- Embeds `DataReplicator::_onOplogFetchFinish` (source lines 1322-1394).  `now`
is the executor's `now()` observed inside the callback.  The terminal
`_doNextActions()` call is recorded as a dispatch effect. -/
def DataReplicator.onOplogFetchFinish (now : Nat) (st : DataReplicator)
    (fetchResult : BatchDataStatus) (_nextAction : NextAction) :
    DataReplicator :=
  let statusCode := match fetchResult with | .ok _ => ErrorCode.OK | .error e => e
  if statusCode == .CallbackCanceled then st
  else
    let st :=
      match fetchResult with
      | .ok batch =>
        if !batch.documents.isEmpty then
          let st := { st with oplogBuffer := st.oplogBuffer ++ batch.documents }
          -- Scan from the tail for the last document carrying a "ts" field.
          match batch.documents.reverse.find? (fun d => d.ts?.isSome) with
          | some d => { st with lastTimestampFetched := d.tsVal }
          | none => DataReplicator.emit st .warnNoTimestamp
        else st
      | .error _ => st
    let st :=
      match fetchResult with
      | .ok _ => st
      | .error e =>
        let st :=
          match e with
          | .OplogStartMissing =>
            if !didRollback st.syncSource then
              let st := DataReplicator.emit st (.setFollowerMode .RS_RECOVERING)
              DataReplicator.emit st (.blacklistSyncSource st.syncSource
                (now + st.opts.blacklistSyncSourcePenaltyForOplogStartMissing))
            else st
          | _ =>
            -- InvalidSyncSource falls through to the default arm.
            DataReplicator.emit st (.blacklistSyncSource st.syncSource
              (now + st.opts.blacklistSyncSourcePenaltyForNetworkConnectionError))
        { st with syncSource := "" }
    DataReplicator.emit st .doNextActionsDispatch

/-! ## Sample states used by witnesses -/

/-- A sample `DataReplicatorOptions` value. -/
def opts0 : DataReplicatorOptions :=
  { syncSource := "h1"
    startOptime := 0
    initialSyncRetryWait := 5
    syncSourceRetryWait := 7
    blacklistSyncSourcePenaltyForOplogStartMissing := 11
    blacklistSyncSourcePenaltyForNetworkConnectionError := 13 }

/-- A freshly constructed replicator. -/
def repl0 : DataReplicator := DataReplicator.mk0 opts0

/-- A replicator in steady replication with a sync source. -/
def replSteady : DataReplicator :=
  { repl0 with state := .Steady, syncSource := "h1" }

/-- A replicator mid-initial-sync. -/
def replInitialSync : DataReplicator :=
  { repl0 with state := .InitialSync }

/-- A replicator mid-initial-sync with two buffered ops and an
initial-sync state. -/
def replApplying : DataReplicator :=
  { repl0 with
      state := .InitialSync
      syncSource := "h1"
      oplogBuffer := [{ ts? := some 3 }, { ts? := some 5 }]
      lastTimestampApplied := 2
      initialSyncState := some (InitialSyncState.init (DatabasesCloner.init true)) }

/-! ## Theorems -/

/-- Helper: `_scheduleFetch_inlock` never touches the replicator's state
tag or its pause flags. -/
theorem scheduleFetch_coreFields (env : SteadyEnv) (st : DataReplicator) :
    (DataReplicator.scheduleFetch env st).state = st.state ∧
    (DataReplicator.scheduleFetch env st).applierPaused = st.applierPaused ∧
    (DataReplicator.scheduleFetch env st).fetcherPaused = st.fetcherPaused ∧
    (DataReplicator.scheduleFetch env st).reporterPaused = st.reporterPaused := by
  refine ⟨?_, ?_, ?_, ?_⟩ <;>
  · unfold DataReplicator.scheduleFetch DataReplicator.ensureGoodSyncSource
      DataReplicator.emit
    dsimp only
    repeat' split
    all_goals rfl

/-- Helper: `_scheduleApplyBatch_inlock` never touches the replicator's
state tag or its pause flags. -/
theorem scheduleApplyBatch_coreFields (st : DataReplicator) :
    (DataReplicator.scheduleApplyBatch st).state = st.state ∧
    (DataReplicator.scheduleApplyBatch st).applierPaused = st.applierPaused ∧
    (DataReplicator.scheduleApplyBatch st).fetcherPaused = st.fetcherPaused ∧
    (DataReplicator.scheduleApplyBatch st).reporterPaused = st.reporterPaused := by
  refine ⟨?_, ?_, ?_, ?_⟩ <;>
  · unfold DataReplicator.scheduleApplyBatch DataReplicator.getNextApplierBatch
      DataReplicator.emit
    dsimp only
    repeat' split
    all_goals rfl

/-- Helper: the steady-state dispatcher never touches the replicator's
state tag or its pause flags. -/
theorem doNextActionsSteady_coreFields (env : SteadyEnv) (st : DataReplicator) :
    (DataReplicator.doNextActionsSteady env st).state = st.state ∧
    (DataReplicator.doNextActionsSteady env st).applierPaused = st.applierPaused ∧
    (DataReplicator.doNextActionsSteady env st).fetcherPaused = st.fetcherPaused ∧
    (DataReplicator.doNextActionsSteady env st).reporterPaused = st.reporterPaused := by
  have hsrc : ∀ s : DataReplicator,
      (DataReplicator.steadyCheckSource env s).state = s.state ∧
      (DataReplicator.steadyCheckSource env s).applierPaused = s.applierPaused ∧
      (DataReplicator.steadyCheckSource env s).fetcherPaused = s.fetcherPaused ∧
      (DataReplicator.steadyCheckSource env s).reporterPaused = s.reporterPaused := by
    intro s
    unfold DataReplicator.steadyCheckSource
    dsimp only
    repeat' split
    all_goals
      first
      | exact ⟨rfl, rfl, rfl, rfl⟩
      | exact scheduleFetch_coreFields env _
  have happ : ∀ s : DataReplicator,
      (DataReplicator.steadyCheckApply s).state = s.state ∧
      (DataReplicator.steadyCheckApply s).applierPaused = s.applierPaused ∧
      (DataReplicator.steadyCheckApply s).fetcherPaused = s.fetcherPaused ∧
      (DataReplicator.steadyCheckApply s).reporterPaused = s.reporterPaused := by
    intro s
    unfold DataReplicator.steadyCheckApply
    split
    · exact scheduleApplyBatch_coreFields s
    · exact ⟨rfl, rfl, rfl, rfl⟩
  have hrep : ∀ s : DataReplicator,
      (DataReplicator.steadyCheckReporter s).state = s.state ∧
      (DataReplicator.steadyCheckReporter s).applierPaused = s.applierPaused ∧
      (DataReplicator.steadyCheckReporter s).fetcherPaused = s.fetcherPaused ∧
      (DataReplicator.steadyCheckReporter s).reporterPaused = s.reporterPaused := by
    intro s
    unfold DataReplicator.steadyCheckReporter
    split
    · exact ⟨rfl, rfl, rfl, rfl⟩
    · exact ⟨rfl, rfl, rfl, rfl⟩
  unfold DataReplicator.doNextActionsSteady
  obtain ⟨a1, a2, a3, a4⟩ := hsrc st
  obtain ⟨b1, b2, b3, b4⟩ := happ (DataReplicator.steadyCheckSource env st)
  obtain ⟨c1, c2, c3, c4⟩ :=
    hrep (DataReplicator.steadyCheckApply (DataReplicator.steadyCheckSource env st))
  exact ⟨by rw [c1, b1, a1], by rw [c2, b2, a2], by rw [c3, b3, a3],
         by rw [c4, b4, a4]⟩

/-- C1: the claim states that when the first batch has no first document or
its `ts` differs from the start timestamp `S`, the fetcher terminates the
cursor (`kNoAction`) and the callback sees `OplogStartMissing`.  On the
code this never happens: `QueryFetcher::_onFetchCallback` increments
`_responses` before invoking `_delegateCallback`, so the first-batch check
`_responses == 0` is already false on the first batch.  Evaluating the
embedding at a first batch whose only document has `ts = 501` while the
fetcher was started at `S = 500`: the batch itself is handed to the
callback, the next action stays `kGetMore` (so the getMore is issued and
further batches continue), and no `OplogStartMissing` error is surfaced;
likewise a first batch with no documents is silently dropped instead of
erroring. -/
theorem c1_first_batch_validation_is_dead_code :
    QueryFetcher.onFetchCallback 500 0
        (.ok { documents := [{ ts? := some 501 }] }) .kGetMore
      = (1, [.ok { documents := [{ ts? := some 501 }] }], .kGetMore, true)
    ∧ QueryFetcher.onFetchCallback 500 0 (.ok { documents := [] }) .kGetMore
      = (1, [], .kGetMore, true) := by
  exact ⟨rfl, rfl⟩

/-- C2: the claim states that the first non-OK status passed to
`DatabasesCloner::_setStatus` (or `InitialSyncState::setStatus`) is the one
recorded and later failures are dropped.  On the code the opposite holds:
`_setStatus`'s guard overwrites whenever the current status is *not*
`NotYetInitialized` — so after `start()` has set `_status = OK`, every
subsequent failure overwrites and the LAST one is recorded — while a status
arriving when `_status` is still `NotYetInitialized` is not recorded at
all; `InitialSyncState::setStatus` overwrites unconditionally.  Evaluated
at the sequence `UnknownError` then `BadValue`. -/
theorem c2_last_failure_wins :
    (DatabasesCloner.setStatus
        (DatabasesCloner.setStatus
          (DatabasesCloner.start (.ok ()) (DatabasesCloner.init true)).2
          .UnknownError)
        .BadValue).status = .BadValue
    ∧ (DatabasesCloner.setStatus (DatabasesCloner.init true) .UnknownError).status
        = .NotYetInitialized
    ∧ (InitialSyncState.setStatus
        (InitialSyncState.setStatus
          (InitialSyncState.init (DatabasesCloner.init true)) .UnknownError)
        .BadValue).status = .BadValue := by
  exact ⟨rfl, rfl, rfl⟩

/-- C3: the claim states the owner's finish callback is invoked exactly
once on every run, including failure and cancellation.  On the code: run
the cloner through `start`, a `listDatabases` response with one database
whose cloner starts, and then that cloner's completion with an error — the
finish callback fires TWICE (once when the active counter hits zero, and
again via `_doNextActions` → `_failed` because the status is non-OK).  And
`cancel()` on the same mid-run state invokes the finish callback ZERO
times. -/
theorem c3_finish_callback_twice_on_failure_never_on_cancel :
    (DatabasesCloner.onEachDBCloneFinish
        (DatabasesCloner.onListDatabaseFinish (.ok (true, [("a", .ok ())]))
          (DatabasesCloner.start (.ok ()) (DatabasesCloner.init true)).2)
        .UnknownError).finishCalls = [.UnknownError, .UnknownError]
    ∧ (DatabasesCloner.cancel
        (DatabasesCloner.onListDatabaseFinish (.ok (true, [("a", .ok ())]))
          (DatabasesCloner.start (.ok ()) (DatabasesCloner.init true)).2)).finishCalls
        = [] := by
  exact ⟨rfl, rfl⟩

/-- C6: `initialSync` called while the state is `InitialSync` returns
`InvalidRoleModification`; called while `Steady` or `Rollback` it returns
`AlreadyInitialized`; in both rejection cases the replicator is returned
unchanged. -/
theorem c6_initial_sync_rejected_outside_uninitialized (failpointActive : Bool)
    (attemptBody : Nat → DataReplicator → ErrorCode × DataReplicator)
    (st : DataReplicator) :
    (st.state = .InitialSync →
      DataReplicator.initialSync failpointActive attemptBody st
        = (.error .InvalidRoleModification, st, [])) ∧
    (st.state = .Steady ∨ st.state = .Rollback →
      DataReplicator.initialSync failpointActive attemptBody st
        = (.error .AlreadyInitialized, st, [])) := by
  constructor
  · intro h
    unfold DataReplicator.initialSync
    rw [h]
    rfl
  · rintro (h | h) <;>
    · unfold DataReplicator.initialSync
      rw [h]
      rfl

/-- C6 witness: concrete rejections in the `InitialSync` and `Steady`
states. -/
theorem c6_witness :
    DataReplicator.initialSync false (fun _ s => (.OK, s)) replInitialSync
      = (.error .InvalidRoleModification, replInitialSync, [])
    ∧ DataReplicator.initialSync false (fun _ s => (.OK, s)) replSteady
      = (.error .AlreadyInitialized, replSteady, []) :=
  ⟨(c6_initial_sync_rejected_outside_uninitialized false (fun _ s => (.OK, s))
      replInitialSync).1 rfl,
   (c6_initial_sync_rejected_outside_uninitialized false (fun _ s => (.OK, s))
      replSteady).2 (Or.inl rfl)⟩

/-- C7: `start` while `Uninitialized` transitions the state to `Steady`,
unpauses the applier, fetcher and reporter, and returns `OK`; `start` in
any other state returns `IllegalOperation` and leaves the replicator
unchanged. -/
theorem c7_start_transitions_only_from_uninitialized (env : SteadyEnv)
    (st : DataReplicator) :
    (st.state ≠ .Uninitialized →
      DataReplicator.start env st = (.IllegalOperation, st)) ∧
    (st.state = .Uninitialized →
      (DataReplicator.start env st).1 = .OK ∧
      (DataReplicator.start env st).2.state = .Steady ∧
      (DataReplicator.start env st).2.applierPaused = false ∧
      (DataReplicator.start env st).2.fetcherPaused = false ∧
      (DataReplicator.start env st).2.reporterPaused = false) := by
  constructor
  · intro h
    unfold DataReplicator.start
    have hb : (st.state != DataReplicatorState.Uninitialized) = true := by
      simpa using h
    rw [hb]
    simp
  · intro h
    obtain ⟨o, sta, fp, rp, aa, ap, buf, ds, ss, ltf, lta, iss, f, fa, rpres,
      rstat, ifb, lg⟩ := st
    simp only at h
    subst h
    exact ⟨rfl, ((doNextActionsSteady_coreFields _ _).1).trans rfl,
      ((doNextActionsSteady_coreFields _ _).2.1).trans rfl,
      ((doNextActionsSteady_coreFields _ _).2.2.1).trans rfl,
      ((doNextActionsSteady_coreFields _ _).2.2.2).trans rfl⟩

/-- C7 witness: `start` on a fresh replicator succeeds and enters
`Steady`; `start` on a steady replicator is rejected. -/
theorem c7_witness :
    ((DataReplicator.start ⟨"h2", 0, 50⟩ repl0).1 = .OK ∧
      (DataReplicator.start ⟨"h2", 0, 50⟩ repl0).2.state = .Steady ∧
      (DataReplicator.start ⟨"h2", 0, 50⟩ repl0).2.applierPaused = false ∧
      (DataReplicator.start ⟨"h2", 0, 50⟩ repl0).2.fetcherPaused = false ∧
      (DataReplicator.start ⟨"h2", 0, 50⟩ repl0).2.reporterPaused = false)
    ∧ DataReplicator.start ⟨"h2", 0, 50⟩ replSteady
        = (.IllegalOperation, replSteady) :=
  ⟨(c7_start_transitions_only_from_uninitialized ⟨"h2", 0, 50⟩ repl0).2 rfl,
   (c7_start_transitions_only_from_uninitialized ⟨"h2", 0, 50⟩ replSteady).1
      (by decide)⟩

/-- C10: `DatabasesCloner::start` sets `_active = true` before checking the
construction status; for a cloner constructed with a non-callable finish
callback (status `InvalidOptions`) it returns that non-OK status — whatever
the executor would have answered — yet `isActive()` afterwards still
reports true. -/
theorem c10_failed_start_leaves_cloner_active :
    ∀ scheduleResult : Except ErrorCode Unit,
      (DatabasesCloner.start scheduleResult (DatabasesCloner.init false)).1
        = .InvalidOptions
      ∧ DatabasesCloner.isActive
          (DatabasesCloner.start scheduleResult (DatabasesCloner.init false)).2
        = true
      ∧ (DatabasesCloner.start scheduleResult (DatabasesCloner.init false)).2.status
        = .InvalidOptions := by
  intro scheduleResult
  exact ⟨rfl, rfl, rfl⟩

/-- C4: with the `failInitialSyncWithBadHost` failpoint active every attempt
fails immediately with `InvalidSyncSource`; `initialSync` (entered from
`Uninitialized`) then makes exactly `maxFailedAttempts = 10` attempts,
sleeping `initialSyncRetryWait` between consecutive attempts (the trace is
ten failed-attempt/sleep pairs), and after the 10th failed attempt returns
the non-OK `InitialSyncFailure` status. -/
theorem c4_failpoint_exhausts_ten_attempts
    (attemptBody : Nat → DataReplicator → ErrorCode × DataReplicator)
    (st : DataReplicator) (hst : st.state = .Uninitialized)
    (hrep : st.reporterPresent = false) :
    (DataReplicator.initialSync true attemptBody st).1
      = .error .InitialSyncFailure
    ∧ (DataReplicator.initialSync true attemptBody st).2.2
      = (List.replicate maxFailedAttempts
          [Effect.attemptFailed .InvalidSyncSource, Effect.sleepRetry]).flatten := by
  obtain ⟨o, sta, fp, rp, aa, ap, buf, ds, ss, ltf, lta, iss, f, fa, rpres,
    rstat, ifb, lg⟩ := st
  simp only at hst hrep
  subst hst
  subst hrep
  exact ⟨rfl, rfl⟩

/-- C4 witness: a fresh replicator under the failpoint. -/
theorem c4_witness :
    (DataReplicator.initialSync true (fun _ s => (.OK, s)) repl0).1
      = .error .InitialSyncFailure
    ∧ (DataReplicator.initialSync true (fun _ s => (.OK, s)) repl0).2.2
      = (List.replicate maxFailedAttempts
          [Effect.attemptFailed .InvalidSyncSource, Effect.sleepRetry]).flatten :=
  c4_failpoint_exhausts_ten_attempts (fun _ s => (.OK, s)) repl0 rfl rfl

/-- C5: when the oplog-fetch completion callback receives an
`OplogStartMissing` error (and the rollback decision, the stub
`_didRollback`, is not taken), it calls `setFollowerMode(RS_RECOVERING)`,
blacklists the sync source until `now()` plus the configured
oplog-start-missing penalty, clears the local sync source, and then invokes
the progress dispatcher — in that order; any other non-cancelled error
instead blacklists the source with the network-connection-error penalty
(and also clears the source and dispatches). -/
theorem c5_oplog_start_missing_handling (now : Nat) (st : DataReplicator)
    (e : ErrorCode) (na : NextAction) (hcc : e ≠ .CallbackCanceled)
    (hlog : st.log = []) :
    (DataReplicator.onOplogFetchFinish now st (.error e) na).syncSource = ""
    ∧ (e = .OplogStartMissing →
        (DataReplicator.onOplogFetchFinish now st (.error e) na).log
          = [.setFollowerMode .RS_RECOVERING,
             .blacklistSyncSource st.syncSource
               (now + st.opts.blacklistSyncSourcePenaltyForOplogStartMissing),
             .doNextActionsDispatch])
    ∧ (e ≠ .OplogStartMissing →
        (DataReplicator.onOplogFetchFinish now st (.error e) na).log
          = [.blacklistSyncSource st.syncSource
               (now + st.opts.blacklistSyncSourcePenaltyForNetworkConnectionError),
             .doNextActionsDispatch]) := by
  obtain ⟨o, sta, fp, rp, aa, ap, buf, ds, ss, ltf, lta, iss, f, fa, rpres,
    rstat, ifb, lg⟩ := st
  simp only at hlog
  subst hlog
  cases e
  case CallbackCanceled => exact absurd rfl hcc
  case OplogStartMissing => exact ⟨rfl, fun _ => rfl, fun hne => absurd rfl hne⟩
  all_goals exact ⟨rfl, fun heq => absurd heq (by decide), fun _ => rfl⟩

/-- C5 witness: a steady replicator with source "h1", penalty 11, observed
`now() = 100`. -/
theorem c5_witness :
    (DataReplicator.onOplogFetchFinish 100 replSteady
        (.error .OplogStartMissing) .kGetMore).syncSource = ""
    ∧ (DataReplicator.onOplogFetchFinish 100 replSteady
        (.error .OplogStartMissing) .kGetMore).log
      = [.setFollowerMode .RS_RECOVERING, .blacklistSyncSource replSteady.syncSource 111,
         .doNextActionsDispatch] :=
  have h := c5_oplog_start_missing_handling 100 replSteady .OplogStartMissing
    .kGetMore (by decide) rfl
  ⟨h.1, (h.2.1 rfl).trans rfl⟩

/-- C8: a successful applier-batch completion writes to
`lastTimestampApplied` the batch's result timestamp — which, with the batch
drained FIFO from the buffer by `_getNextApplierBatch_inlock` and with the
external applier's contract that the result is the `ts` of the last applied
op (`applierResultTs`) — is greater than or equal to the previous value,
whenever every buffered document's `ts` is at least the previously applied
timestamp (the FIFO ordering invariant the spec states for the buffer). -/
theorem c8_last_timestamp_applied_monotone (st : DataReplicator)
    (iss : InitialSyncState) (hiss : st.initialSyncState = some iss)
    (hp : st.applierPaused = false) (ha : st.applierActive = false)
    (hne : st.oplogBuffer ≠ [])
    (hlb : ∀ d ∈ st.oplogBuffer, st.lastTimestampApplied ≤ OplogDoc.tsVal d) :
    (DataReplicator.onApplyBatchFinish (DataReplicator.scheduleApplyBatch st)
        (.ok (applierResultTs (DataReplicator.scheduleApplyBatch st).inFlightBatch))
        (DataReplicator.scheduleApplyBatch st).inFlightBatch
        ((DataReplicator.scheduleApplyBatch st).inFlightBatch).length).map
        DataReplicator.lastTimestampApplied
      = some (applierResultTs (DataReplicator.scheduleApplyBatch st).inFlightBatch)
    ∧ st.lastTimestampApplied
        ≤ applierResultTs (DataReplicator.scheduleApplyBatch st).inFlightBatch := by
  obtain ⟨o, sta, fp, rp, aa, ap, buf, ds, ss, ltf, lta, issF, f, fa, rpres,
    rstat, ifb, lg⟩ := st
  simp only at hiss hp ha hne hlb
  subst hiss
  subst hp
  subst ha
  constructor
  · cases rpres <;> rfl
  · have hbatch : (DataReplicator.scheduleApplyBatch
        ⟨o, sta, fp, rp, false, false, buf, ds, ss, ltf, lta, some iss, f, fa,
         rpres, rstat, ifb, lg⟩).inFlightBatch = buf := rfl
    rw [hbatch]
    unfold applierResultTs
    rw [List.getLast?_eq_getLast buf hne]
    exact hlb (buf.getLast hne) (List.getLast_mem hne)

/-- C8 witness: buffer `[ts 3, ts 5]`, previously applied timestamp 2. -/
theorem c8_witness :
    (DataReplicator.onApplyBatchFinish
        (DataReplicator.scheduleApplyBatch replApplying)
        (.ok (applierResultTs
          (DataReplicator.scheduleApplyBatch replApplying).inFlightBatch))
        (DataReplicator.scheduleApplyBatch replApplying).inFlightBatch
        ((DataReplicator.scheduleApplyBatch replApplying).inFlightBatch).length).map
        DataReplicator.lastTimestampApplied
      = some (applierResultTs
          (DataReplicator.scheduleApplyBatch replApplying).inFlightBatch)
    ∧ replApplying.lastTimestampApplied
        ≤ applierResultTs
            (DataReplicator.scheduleApplyBatch replApplying).inFlightBatch :=
  c8_last_timestamp_applied_monotone replApplying
    (InitialSyncState.init (DatabasesCloner.init true)) rfl rfl rfl
    (by decide) (by decide)

/-- C9: every applier-batch completion begins by incrementing the
initial-sync state's `appliedOps` counter, in every replicator state: when
the handle is absent the callback dereferences it (modelled `none`, the
undefined behaviour), and when it is present the callback always succeeds
with `appliedOps` grown by exactly `numApplied` — so batch completion is
safe only under the precondition that the initial-sync state exists. -/
theorem c9_applied_ops_increment_requires_state (st : DataReplicator)
    (ts : Except ErrorCode Nat) (ops : List OplogDoc) (numApplied : Nat) :
    (st.initialSyncState = none →
      DataReplicator.onApplyBatchFinish st ts ops numApplied = none)
    ∧ (∀ iss, st.initialSyncState = some iss →
        (DataReplicator.onApplyBatchFinish st ts ops numApplied).bind
            (fun s => s.initialSyncState.map InitialSyncState.appliedOps)
          = some (iss.appliedOps + numApplied)) := by
  constructor
  · intro h
    unfold DataReplicator.onApplyBatchFinish
    rw [h]
  · intro iss h
    unfold DataReplicator.onApplyBatchFinish
    rw [h]
    cases ts with
    | ok t => cases hrp : st.reporterPresent <;> simp only [hrp] <;> rfl
    | error e =>
      dsimp only
      unfold DataReplicator.handleFailedApplyBatch
        DataReplicator.scheduleApplyAfterFetch
      split
      all_goals rfl

/-- C9 witness: completion with no initial-sync state dereferences the
absent handle; with one present, `appliedOps` grows by the batch size. -/
theorem c9_witness :
    DataReplicator.onApplyBatchFinish replSteady (.ok 5) [] 0 = none
    ∧ (DataReplicator.onApplyBatchFinish replApplying (.ok 5)
        [{ ts? := some 5 }] 1).bind
        (fun s => s.initialSyncState.map InitialSyncState.appliedOps)
      = some 1 :=
  ⟨(c9_applied_ops_increment_requires_state replSteady (.ok 5) [] 0).1 rfl,
   (c9_applied_ops_increment_requires_state replApplying (.ok 5)
      [{ ts? := some 5 }] 1).2
      (InitialSyncState.init (DatabasesCloner.init true)) rfl⟩
